import Mathlib

/-!
Verification development for the `jira-gpt-backend` FastAPI service
(`src/main.py`). The Python route handlers are shallowly embedded as pure
Lean functions: the outbound HTTP world (Jira / Atlassian responses) is an
explicit environment argument, the in-memory `user_tokens` dict is a
`String → Option Session` store threaded through the handlers, and the
sequence of outbound HTTP requests a handler issues is returned as an
explicit trace. Machine-level aspects that the claims do not touch
(JSON parse errors of well-typed fields, Unicode case folding beyond
ASCII, network-level exceptions other than HTTP error statuses) are noted
in doc comments where they are abstracted.
-/

namespace JiraGPT

/-- Python truthiness of an optional string value: `None` and `""` are
falsy, every other string is truthy (`if not x: ...`). -/
def optTruthy : Option String → Bool
  | none => false
  | some s => s ≠ ""

/-- ASCII lowering of one character, the effect of Python `str.lower()` on
ASCII text (the embedding assumes ASCII data; `Char.toLower` lowers
exactly the range A–Z). -/
def lowerAscii (s : String) : String :=
  String.mk (s.toList.map Char.toLower)

/-- `leadsWith w t` holds when the character list `w` is an initial
segment of `t`. -/
def leadsWith : List Char → List Char → Bool
  | [], _ => true
  | _ :: _, [] => false
  | a :: as, b :: bs => a == b && leadsWith as bs

/-- `occursIn w t` holds when `w` occurs contiguously somewhere in `t`. -/
def occursIn (w : List Char) : List Char → Bool
  | [] => leadsWith w []
  | c :: cs => leadsWith w (c :: cs) || occursIn w cs

/-- Python substring membership `w in t` on strings. -/
def strHas (t w : String) : Bool :=
  occursIn w.toList t.toList

/-- The JSON value found in an issue's `description` field. Jira may
return a plain string or a structured (ADF) document; the embedding keeps
a string verbatim and records, for any non-string value, its Python
truthiness and its `str()` rendering, which is all `jql_search` ever asks
of it. -/
inductive DescVal where
  | dstr (s : String)
  | dother (isTruthy : Bool) (rendered : String)
deriving DecidableEq, Repr

/-- Python truthiness of a description value (`if not description`). -/
def DescVal.truthy : DescVal → Bool
  | .dstr s => s ≠ ""
  | .dother t _ => t

/-- `text = description if isinstance(description, str) else str(description)`. -/
def DescVal.text : DescVal → String
  | .dstr s => s
  | .dother _ r => r

/-- The `issuetype` object of an issue's fields: its `name` entry when
present. -/
structure IssueType where
  name : Option String
deriving DecidableEq, Repr

/-- The parts of `i["fields"]` that `jql_search` reads. `summary` is read
with `i["fields"]["summary"]` and is assumed present (a missing summary
would raise an uncaught `KeyError`). -/
structure IssueFields where
  issuetype : Option IssueType
  description : Option DescVal
  summary : String
deriving DecidableEq, Repr

/-- One issue of a Jira search response. -/
structure Issue where
  key : String
  fields : IssueFields
deriving DecidableEq, Repr

/-- One entry of the list `jql_search` builds:
`{"key": key, "summary": i["fields"]["summary"], "description": description}`. -/
structure IssueOut where
  key : String
  summary : String
  description : DescVal
deriving DecidableEq, Repr

/-- `logic_keywords = ["verify", "check", "validate", "flow", "test", "should"]`. -/
def logic_keywords : List String :=
  ["verify", "check", "validate", "flow", "test", "should"]

/-- `i["fields"].get("issuetype", {}).get("name", "")`. -/
def getIssueTypeName (f : IssueFields) : String :=
  ((f.issuetype.getD ⟨none⟩).name).getD ""

/-- `description = i["fields"].get("description", "")`. -/
def getDescription (f : IssueFields) : DescVal :=
  f.description.getD (.dstr "")

/-- `issue_type in ["epic", "parent"]` where
`issue_type = ...get("name", "").lower()`. -/
def isEpicOrParent (i : Issue) : Bool :=
  let issue_type := lowerAscii (getIssueTypeName i.fields)
  issue_type == "epic" || issue_type == "parent"

/-- The Epic/Parent heuristic of the loop body in `jql_search`, as a keep
decision for one issue: skip when the description is falsy, or when no
logic keyword occurs in its lowered text. Non-Epic/Parent issues are
always kept by the heuristic. -/
def heuristicKeeps (i : Issue) : Bool :=
  if isEpicOrParent i then
    let description := getDescription i.fields
    if !description.truthy then false
    else
      let text := description.text
      logic_keywords.any (fun word => strHas (lowerAscii text) word)
  else true

/-- `if source_ticket_key and key == source_ticket_key: continue`. -/
def sourceExcluded (source_ticket_key : Option String) (i : Issue) : Bool :=
  optTruthy source_ticket_key && (some i.key == source_ticket_key)

/-- The whole keep decision of one iteration of the `for` loop in
`jql_search`: the source-ticket exclusion, then the Epic/Parent
heuristic. -/
def keepIssue (source_ticket_key : Option String) (i : Issue) : Bool :=
  !sourceExcluded source_ticket_key i && heuristicKeeps i

/-- The projection appended by `issues.append({...})`. -/
def projIssue (i : Issue) : IssueOut :=
  { key := i.key, summary := i.fields.summary,
    description := getDescription i.fields }

/-- The issue-list construction of `jql_search`: the loop over
`res.json().get("issues", [])`, with `continue` for skipped issues and
`issues.append` for kept ones. -/
def jql_search_issues (source_ticket_key : Option String) :
    List Issue → List IssueOut
  | [] => []
  | i :: rest =>
    if keepIssue source_ticket_key i then
      projIssue i :: jql_search_issues source_ticket_key rest
    else
      jql_search_issues source_ticket_key rest

/-- `requests.Response.raise_for_status()` raises `HTTPError` exactly for
status codes 400 ≤ s < 600. -/
def raiseForStatusErrors (status : Nat) : Bool :=
  400 ≤ status && status < 600

/-- The GET request `jql_search` sends to `{base_url}/rest/api/3/search`
with `params={"jql": full_jql, "maxResults": 100}`. -/
structure JqlRequest where
  url : String
  jql : String
  maxResults : Nat
deriving DecidableEq, Repr

/-- `full_jql = f'project = "{project_key}" AND {jql}' if project_key else jql`. -/
def full_jql (project_key : Option String) (jql : String) : String :=
  if optTruthy project_key then
    "project = \"" ++ project_key.getD "" ++ "\" AND " ++ jql
  else jql

/-- The upstream world as seen by one `jql_search` call: the HTTP status
Jira answers with, and the `issues` array of its JSON body. A
network-level `RequestException` other than an HTTP error status, and a
JSON body that fails to parse, both also land in the 500 branch of the
code; they are not modelled separately. -/
structure SearchEnv where
  upstream_status : Nat
  issues : List Issue
deriving DecidableEq, Repr

/-- Outcome of `jql_search`: the issue list on success, or the
`JSONResponse(status_code=500, ...)` produced by its `except` clauses
after `raise_for_status` fires. -/
inductive JqlResult where
  | ok (issues : List IssueOut)
  | err500
deriving DecidableEq, Repr

/-- The function `jql_search(jql, headers, base_url, project_key,
source_ticket_key)`: returns the request it sends together with its
outcome. -/
def jql_search (jql : String) (base_url : String)
    (project_key : Option String) (source_ticket_key : Option String)
    (env : SearchEnv) : JqlRequest × JqlResult :=
  let req : JqlRequest :=
    { url := base_url ++ "/rest/api/3/search",
      jql := full_jql project_key jql,
      maxResults := 100 }
  if raiseForStatusErrors env.upstream_status then (req, .err500)
  else (req, .ok (jql_search_issues source_ticket_key env.issues))

/-- One value of the `user_tokens` dict: the entry stored by
`oauth_callback`, plus the `project_key` that `/set-project` may add
later (absent right after login). -/
structure Session where
  access_token : String
  cloud_id : String
  base_url : String
  project_key : Option String
deriving DecidableEq, Repr

/-- The in-memory `user_tokens` dict. -/
def Store := String → Option Session

/-- The three `HTTPException`s `get_auth_headers` can raise. -/
inductive AuthError where
  | missingUserId
  | sessionUnknown
  | projectUnset
deriving DecidableEq, Repr

/-- Status code of each `HTTPException` in `get_auth_headers`. -/
def AuthError.status : AuthError → Nat
  | .missingUserId => 401
  | .sessionUnknown => 401
  | .projectUnset => 400

/-- The headers dict `get_auth_headers` returns. -/
structure AuthHeaders where
  authorization : String
  accept : String
  contentType : String
deriving DecidableEq, Repr

/-- `get_auth_headers(request)`: reads `user_id` from the query
parameters, raises 401 when it is falsy or not a key of `user_tokens`,
raises 400 when the stored session's `project_key` is falsy, and
otherwise returns the Bearer headers, the base URL and the project key. -/
def get_auth_headers (user_id : Option String) (user_tokens : Store) :
    Except AuthError (AuthHeaders × String × String) :=
  match user_id with
  | none => .error .missingUserId
  | some uid =>
    if uid = "" then .error .missingUserId
    else
      match user_tokens uid with
      | none => .error .sessionUnknown
      | some data =>
        match data.project_key with
        | none => .error .projectUnset
        | some pk =>
          if pk = "" then .error .projectUnset
          else
            .ok ({ authorization := "Bearer " ++ data.access_token,
                   accept := "application/json",
                   contentType := "application/json" },
                 data.base_url, pk)

/-- Outcome of a route that depends on `get_auth_headers` and then runs
`jql_search`: either the dependency's `HTTPException` status (no Jira
request is made), or the `jql_search` request/outcome pair. -/
inductive RouteResult where
  | authError (status : Nat)
  | jira (r : JqlRequest × JqlResult)
deriving Repr

/-- `GET /impact/label/{label}`: passes the `source_ticket` query
parameter to `jql_search` as the exclusion key. -/
def get_impact_by_label (label : String) (source_ticket : Option String)
    (user_id : Option String) (user_tokens : Store) (env : SearchEnv) :
    RouteResult :=
  match get_auth_headers user_id user_tokens with
  | .error e => .authError e.status
  | .ok (_, base_url, project_key) =>
    .jira (jql_search ("labels = \"" ++ label ++ "\"") base_url
      (some project_key) source_ticket env)

/-- `GET /impact/component/{component}`. -/
def get_impact_by_component (component : String)
    (source_ticket : Option String) (user_id : Option String)
    (user_tokens : Store) (env : SearchEnv) : RouteResult :=
  match get_auth_headers user_id user_tokens with
  | .error e => .authError e.status
  | .ok (_, base_url, project_key) =>
    .jira (jql_search ("component = \"" ++ component ++ "\"") base_url
      (some project_key) source_ticket env)

/-- `GET /impact/module/{keyword}`. -/
def get_impact_by_module (keyword : String)
    (source_ticket : Option String) (user_id : Option String)
    (user_tokens : Store) (env : SearchEnv) : RouteResult :=
  match get_auth_headers user_id user_tokens with
  | .error e => .authError e.status
  | .ok (_, base_url, project_key) =>
    .jira (jql_search ("summary ~ \"" ++ keyword ++ "\"") base_url
      (some project_key) source_ticket env)

/-- `GET /tickets/sprint/{sprint_id}`: no source-ticket exclusion. -/
def get_tickets_by_sprint (sprint_id : Int) (user_id : Option String)
    (user_tokens : Store) (env : SearchEnv) : RouteResult :=
  match get_auth_headers user_id user_tokens with
  | .error e => .authError e.status
  | .ok (_, base_url, project_key) =>
    .jira (jql_search ("sprint = " ++ toString sprint_id) base_url
      (some project_key) none env)

/-- `GET /tickets/priority/{priority}`: no source-ticket exclusion. -/
def get_tickets_by_priority (priority : String) (user_id : Option String)
    (user_tokens : Store) (env : SearchEnv) : RouteResult :=
  match get_auth_headers user_id user_tokens with
  | .error e => .authError e.status
  | .ok (_, base_url, project_key) =>
    .jira (jql_search ("priority = \"" ++ priority ++ "\"") base_url
      (some project_key) none env)

/-- The upstream world of one proxied GET: the status Jira answers with
and whether its body parses as JSON (`res.json()` raising `ValueError`
otherwise). -/
structure ProxyEnv where
  upstream_status : Nat
  json_ok : Bool
deriving DecidableEq, Repr

/-- `GET /projects`: the tuple is (client status, outbound Jira requests
made, `user_tokens` afterwards). `raise_for_status` turns every upstream
4xx/5xx into the `except RequestException` branch, which answers 500; a
JSON decode failure answers 500 via `except ValueError`. -/
def get_projects (user_id : Option String) (user_tokens : Store)
    (env : ProxyEnv) : Nat × List Unit × Store :=
  match get_auth_headers user_id user_tokens with
  | .error e => (e.status, [], user_tokens)
  | .ok _ =>
    if raiseForStatusErrors env.upstream_status then (500, [()], user_tokens)
    else if !env.json_ok then (500, [()], user_tokens)
    else (200, [()], user_tokens)

/-- `GET /ticket/{issue_key}`, reduced to what decides its client status:
the status of the initial issue request. When that status is not 200 the
handler answers `JSONResponse(status_code=issue_res.status_code, ...)`;
otherwise it proceeds (comment and attachment requests are not traced
here) and answers 200. The trace records the initial issue request. -/
def fetch_ticket (user_id : Option String) (user_tokens : Store)
    (issue_status : Nat) : Nat × List Unit × Store :=
  match get_auth_headers user_id user_tokens with
  | .error e => (e.status, [], user_tokens)
  | .ok _ =>
    if issue_status ≠ 200 then (issue_status, [()], user_tokens)
    else (200, [()], user_tokens)

/-- A route built on `jql_search`, reduced to its client status: the
handler returns `jql_search`'s value, so a `JqlResult.err500` becomes a
500 response and an issue list a 200 response. -/
def jql_route_status : JqlResult → Nat
  | .ok _ => 200
  | .err500 => 500

/-- Response of `requests.post(TOKEN_URL, ...)`: the status, and the
`access_token` entry of its JSON body (read as `tokens["access_token"]`
on the 200 path; assumed present there). -/
structure TokenResponse where
  status : Nat
  access_token : String
deriving DecidableEq, Repr

/-- JSON body of `requests.get(USER_API_URL, ...)`: whether it carries an
`account_id` entry (`user_info.get("account_id", ...)`, a dict lookup
with default, so an empty-string id is used as-is). -/
structure UserInfo where
  account_id : Option String
deriving DecidableEq, Repr

/-- One entry of the accessible-resources array. -/
structure CloudResource where
  id : String
deriving DecidableEq, Repr

/-- The upstream world of one `oauth_callback` invocation, plus the
`uuid.uuid4()` drawn for the fallback user id. -/
structure OAuthEnv where
  token_response : TokenResponse
  user_info : UserInfo
  cloud_info : List CloudResource
  fresh_uuid : String
deriving DecidableEq, Repr

/-- The three outbound HTTP requests `oauth_callback` can make, in source
order: `requests.post(TOKEN_URL, ...)`, `requests.get(USER_API_URL, ...)`,
`requests.get(RESOURCE_API, ...)`. -/
inductive HttpCall where
  | postTokenUrl
  | getUserApi
  | getResourceApi
deriving DecidableEq, Repr

/-- Outcome of `oauth_callback`: a 400 `HTTPException`, the pass-through
`JSONResponse` for a failed token exchange, or the 200 HTML page naming
the cached user id. -/
inductive OAuthResult where
  | badRequest (detail : String)
  | tokenFailure (status : Nat)
  | success (user_id : String)
deriving DecidableEq, Repr

/-- The resolved user id:
`user_info.get("account_id", f"user_{uuid.uuid4()}")`. -/
def resolvedUserId (env : OAuthEnv) : String :=
  env.user_info.account_id.getD ("user_" ++ env.fresh_uuid)

/-- `GET /oauth/callback`: returns the trace of outbound HTTP requests,
the handler outcome, and `user_tokens` afterwards. Mirrors the source:
400 on a falsy `code`; token exchange, answering the token status and
body on non-200; the `/me` lookup; the accessible-resources lookup, 400
on an empty list; then the `user_tokens[user_id] = {...}` write. -/
def oauth_callback (code : Option String) (env : OAuthEnv)
    (user_tokens : Store) : List HttpCall × OAuthResult × Store :=
  if !optTruthy code then
    ([], .badRequest "Missing code", user_tokens)
  else if env.token_response.status ≠ 200 then
    ([.postTokenUrl], .tokenFailure env.token_response.status, user_tokens)
  else
    let access_token := env.token_response.access_token
    let user_id := resolvedUserId env
    match env.cloud_info with
    | [] =>
      ([.postTokenUrl, .getUserApi, .getResourceApi],
       .badRequest "No accessible Jira site found", user_tokens)
    | c :: _ =>
      let cloud_id := c.id
      let base_url := "https://api.atlassian.com/ex/jira/" ++ cloud_id
      ([.postTokenUrl, .getUserApi, .getResourceApi],
       .success user_id,
       fun k =>
         if k = user_id then
           some { access_token := access_token, cloud_id := cloud_id,
                  base_url := base_url, project_key := none }
         else user_tokens k)

/-- `POST /set-project`: 401 when `user_id` is falsy or unknown, 400 when
the body's `project_key` is falsy, otherwise
`user_tokens[x_user_id]["project_key"] = project_key` (status 200). -/
def set_project (user_id : Option String) (body_project_key : Option String)
    (user_tokens : Store) : Nat × Store :=
  match user_id with
  | none => (401, user_tokens)
  | some uid =>
    if uid = "" then (401, user_tokens)
    else
      match user_tokens uid with
      | none => (401, user_tokens)
      | some data =>
        match body_project_key with
        | none => (400, user_tokens)
        | some pk =>
          if pk = "" then (400, user_tokens)
          else
            (200, fun k =>
              if k = uid then some { data with project_key := some pk }
              else user_tokens k)

/-- One handler execution, seen through its effect on `user_tokens`.
`oauth_callback` and `set_project` are the only handlers whose bodies
assign into `user_tokens`; every other handler (`/projects`,
`/ticket/...`, the `/impact/*` and `/tickets/*` searches, the export
helpers, `/oauth/login`, `/`, `/health`) only reads it, which
`readOnly` covers. -/
inductive HandlerStep where
  | oauthCallbackStep (code : Option String) (env : OAuthEnv)
  | setProjectStep (user_id : Option String) (body_project_key : Option String)
  | readOnly
deriving Repr

/-- Effect of one handler execution on the `user_tokens` store. -/
def applyStep (store : Store) : HandlerStep → Store
  | .oauthCallbackStep code env => (oauth_callback code env store).2.2
  | .setProjectStep uid pk => (set_project uid pk store).2
  | .readOnly => store

/-- Effect of a sequence of handler executions on `user_tokens`. -/
def runSteps (store : Store) (steps : List HandlerStep) : Store :=
  steps.foldl applyStep store

/-- Index of the last occurrence of `c` in `l` (Python `str.rfind`),
`none` when absent. -/
def lastIndexOf : List Char → Char → Option Nat
  | [], _ => none
  | a :: as, c =>
    match lastIndexOf as c with
    | some n => some (n + 1)
    | none => if a == c then some 0 else none

/-- `os.path.splitext(p)[-1]` for POSIX paths: the suffix from the last
dot, provided that dot lies after the last `/` and some character of the
base name strictly before it is not a dot (so leading dots such as in
`".bashrc"` yield no extension). -/
def splitextExt (p : String) : String :=
  let l := p.toList
  let sepIndex : Int := match lastIndexOf l '/' with
    | none => -1
    | some n => (n : Int)
  match lastIndexOf l '.' with
  | none => ""
  | some dotIndex =>
    if sepIndex < (dotIndex : Int) then
      if (List.range dotIndex).any
          (fun i => sepIndex < (i : Int) && (l.getD i '.') != '.') then
        String.mk (l.drop dotIndex)
      else ""
    else ""

/-- The behaviour of the third-party parsers on a given byte content:
each supported branch of `extract_text_from_attachment` either returns
extracted text or raises an exception `e`, recorded here as
`Except.error (str e)`. `decodeUtf8Ignore` is
`file_bytes.decode("utf-8", errors="ignore")`, which is total. This
structure is the byte content as the function observes it. -/
structure ParseEnv where
  decodeUtf8Ignore : String
  pdfText : Except String String
  docxText : Except String String
  csvText : Except String String
  xlsxText : Except String String
deriving Repr

/-- The message of the `except Exception` clause:
`f"[ERROR reading {filename}: {str(e)}]"`. -/
def errorMessage (filename : String) (e : String) : String :=
  "[ERROR reading " ++ filename ++ ": " ++ e ++ "]"

/-- `extract_text_from_attachment(filename, file_bytes)`: dispatches on
`os.path.splitext(filename)[-1].lower()`, answers
`f"[Unsupported file type: {ext}]"` for any other extension, and turns
any exception of a supported branch into the `[ERROR reading ...]`
string. Total by construction, as the Python function is at its
interface (its whole body past `splitext` sits in one
`try/except Exception`). -/
def extract_text_from_attachment (env : ParseEnv) (filename : String) :
    String :=
  let ext := lowerAscii (splitextExt filename)
  if ext = ".txt" then env.decodeUtf8Ignore
  else if ext = ".pdf" then
    match env.pdfText with
    | .ok t => t
    | .error e => errorMessage filename e
  else if ext = ".docx" then
    match env.docxText with
    | .ok t => t
    | .error e => errorMessage filename e
  else if ext = ".csv" then
    match env.csvText with
    | .ok t => t
    | .error e => errorMessage filename e
  else if ext = ".xlsx" then
    match env.xlsxText with
    | .ok t => t
    | .error e => errorMessage filename e
  else "[Unsupported file type: " ++ ext ++ "]"

/-! ## Helper lemmas -/

/-- The loop of `jql_search` builds exactly the projections of the kept
issues, in order. -/
theorem jql_search_issues_eq (sk : Option String) (l : List Issue) :
    jql_search_issues sk l = (l.filter (keepIssue sk)).map projIssue := by
  induction l with
  | nil => rfl
  | cons i rest ih =>
    cases h : keepIssue sk i <;>
      simp [jql_search_issues, h, ih, List.filter_cons]

/-- Membership in the built list, characterised by the keep decision. -/
theorem mem_jql_search_issues {sk : Option String} {l : List Issue}
    {o : IssueOut} :
    o ∈ jql_search_issues sk l ↔
      ∃ i, i ∈ l ∧ keepIssue sk i = true ∧ projIssue i = o := by
  rw [jql_search_issues_eq]
  simp only [List.mem_map, List.mem_filter]
  constructor
  · rintro ⟨i, ⟨h1, h2⟩, h3⟩
    exact ⟨i, h1, h2, h3⟩
  · rintro ⟨i, h1, h2, h3⟩
    exact ⟨i, ⟨h1, h2⟩, h3⟩

/-- The built list never exceeds the response's issue count. -/
theorem jql_search_issues_length_le (sk : Option String) (l : List Issue) :
    (jql_search_issues sk l).length ≤ l.length := by
  induction l with
  | nil => simp [jql_search_issues]
  | cons i rest ih =>
    cases h : keepIssue sk i <;> simp [jql_search_issues, h] <;> omega

/-- On an Epic/Parent issue the heuristic keeps exactly the issues with a
truthy description whose lowered text holds a logic keyword. -/
theorem heuristicKeeps_of_epic {i : Issue} (h : isEpicOrParent i = true) :
    heuristicKeeps i =
      ((getDescription i.fields).truthy &&
        logic_keywords.any (fun word =>
          strHas (lowerAscii (getDescription i.fields).text) word)) := by
  unfold heuristicKeeps
  rw [h]
  cases ht : (getDescription i.fields).truthy <;> simp [ht]

/-- On every other issue type the heuristic keeps the issue. -/
theorem heuristicKeeps_of_not_epic {i : Issue}
    (h : isEpicOrParent i = false) : heuristicKeeps i = true := by
  unfold heuristicKeeps
  rw [h]
  rfl

/-! ## Claim C1 -/

/-- An Epic issue whose truthy description holds the logic keyword
"flow". -/
def epicFlowIssue : Issue :=
  { key := "EPIC-7",
    fields := { issuetype := some { name := some "Epic" },
                description := some (.dstr "Should exercise the login flow"),
                summary := "Login epic" } }

/-- Claim C1 is false as stated: an Epic that is itself the excluded
source ticket satisfies the description heuristic (truthy description,
keyword present) and yet does not appear in the returned list, because
the source-ticket exclusion fires first. -/
theorem C1_counterexample :
    isEpicOrParent epicFlowIssue = true ∧
    (getDescription epicFlowIssue.fields).truthy = true ∧
    (logic_keywords.any (fun word =>
      strHas (lowerAscii (getDescription epicFlowIssue.fields).text) word))
      = true ∧
    jql_search_issues (some "EPIC-7") [epicFlowIssue] = [] := by
  refine ⟨rfl, rfl, rfl, rfl⟩

/-- Claim C1 (amended): among the response's issues — assumed to carry
pairwise-distinct keys, as Jira search results do — every issue that is
not excluded as the source ticket and whose issue type name lowers to
"epic" or "parent" appears in the returned list iff its description is
truthy and the description's lowered text holds one of the logic
keywords; issues of every other type are never skipped by this
heuristic. -/
theorem C1_epic_heuristic (sk : Option String) (issues : List Issue)
    (i : Issue) (hmem : i ∈ issues)
    (hkeys : (issues.map Issue.key).Nodup)
    (hsrc : sourceExcluded sk i = false) :
    (isEpicOrParent i = true →
      (projIssue i ∈ jql_search_issues sk issues ↔
        ((getDescription i.fields).truthy = true ∧
          (logic_keywords.any (fun word =>
            strHas (lowerAscii (getDescription i.fields).text) word))
            = true))) ∧
    (isEpicOrParent i = false → heuristicKeeps i = true) := by
  constructor
  · intro hepic
    constructor
    · intro hin
      rcases mem_jql_search_issues.mp hin with ⟨j, hj, hkeep, hproj⟩
      have hkey : j.key = i.key := congrArg IssueOut.key hproj
      have hji : j = i := List.inj_on_of_nodup_map hkeys hj hmem hkey
      subst hji
      have hheur : heuristicKeeps j = true := by
        unfold keepIssue at hkeep
        rw [hsrc] at hkeep
        simpa using hkeep
      rw [heuristicKeeps_of_epic hepic] at hheur
      exact And.imp_right (fun hx => hx) (by simpa using hheur)
    · rintro ⟨hd, hkw⟩
      apply mem_jql_search_issues.mpr
      refine ⟨i, hmem, ?_, rfl⟩
      unfold keepIssue
      rw [hsrc, heuristicKeeps_of_epic hepic, hd, hkw]
      rfl
  · exact heuristicKeeps_of_not_epic

/-- Witness for C1: a keyword-bearing Epic that is not the source ticket
does appear in the returned list. -/
theorem C1_witness :
    projIssue epicFlowIssue ∈ jql_search_issues none [epicFlowIssue] := by
  exact ((C1_epic_heuristic none [epicFlowIssue] epicFlowIssue
    (by simp) (by simp) rfl).1 rfl).mpr ⟨rfl, rfl⟩

/-! ## Claim C2 -/

/-- A Story issue (heuristic never applies to it). -/
def storyIssue : Issue :=
  { key := "STORY-3",
    fields := { issuetype := some { name := some "Story" },
                description := none,
                summary := "A story" } }

/-- An issue carrying the key a caller excludes as its source ticket. -/
def sourceIssue : Issue :=
  { key := "SRC-1",
    fields := { issuetype := some { name := some "Bug" },
                description := some (.dstr "self"),
                summary := "The source ticket" } }

/-- A search response containing the source ticket and one other issue. -/
def c2Env : SearchEnv :=
  { upstream_status := 200, issues := [sourceIssue, storyIssue] }

/-- Claim C2: for every `jql_search` call with a non-empty source ticket
key, no returned entry carries that key, every other issue of the
response that the Epic/Parent heuristic keeps appears in the returned
list, and the three impact routes pass their `source_ticket` query
parameter through to `jql_search` as the exclusion key. -/
theorem C2_source_exclusion (s jql base_url : String) (pk : Option String)
    (env : SearchEnv) (out : List IssueOut) (hs : s ≠ "")
    (hok : (jql_search jql base_url pk (some s) env).2 = .ok out) :
    (∀ o ∈ out, o.key ≠ s) ∧
    (∀ i ∈ env.issues, i.key ≠ s → heuristicKeeps i = true →
      projIssue i ∈ out) ∧
    (∀ (label : String) (st uid : Option String) (store : Store)
        (hd : AuthHeaders) (bu pkk : String),
      get_auth_headers uid store = .ok (hd, bu, pkk) →
      get_impact_by_label label st uid store env =
        .jira (jql_search ("labels = \"" ++ label ++ "\"") bu
          (some pkk) st env) ∧
      get_impact_by_component label st uid store env =
        .jira (jql_search ("component = \"" ++ label ++ "\"") bu
          (some pkk) st env) ∧
      get_impact_by_module label st uid store env =
        .jira (jql_search ("summary ~ \"" ++ label ++ "\"") bu
          (some pkk) st env)) := by
  have hout : out = jql_search_issues (some s) env.issues := by
    by_cases hrs : raiseForStatusErrors env.upstream_status
    · simp [jql_search, hrs] at hok
    · simp [jql_search, hrs] at hok
      exact hok.symm
  subst hout
  refine ⟨?_, ?_, ?_⟩
  · intro o ho
    rcases mem_jql_search_issues.mp ho with ⟨i, _hi, hkeep, hproj⟩
    intro hks
    have hik : i.key = s := by
      have : (projIssue i).key = s := by rw [hproj]; exact hks
      exact this
    have hse : sourceExcluded (some s) i = true := by
      simp [sourceExcluded, optTruthy, hik, hs]
    unfold keepIssue at hkeep
    rw [hse] at hkeep
    simp at hkeep
  · intro i hi hne hheur
    apply mem_jql_search_issues.mpr
    refine ⟨i, hi, ?_, rfl⟩
    have hse : sourceExcluded (some s) i = false := by
      simp [sourceExcluded, optTruthy, hne]
    unfold keepIssue
    rw [hse, hheur]
    rfl
  · intro label st uid store hd bu pkk hauth
    refine ⟨?_, ?_, ?_⟩ <;>
      simp [get_impact_by_label, get_impact_by_component,
        get_impact_by_module, hauth]

/-- Witness for C2: on a concrete response holding the source ticket and
a story, the story (which is not the source ticket and passes the
heuristic) is returned. -/
theorem C2_witness :
    projIssue storyIssue ∈ jql_search_issues (some "SRC-1") c2Env.issues := by
  exact (C2_source_exclusion "SRC-1" "labels = \"ui\"" "https://b" none
    c2Env (jql_search_issues (some "SRC-1") c2Env.issues)
    (by decide) rfl).2.1 storyIssue (by decide) (by decide) (by decide)

/-! ## Claim C3 -/

/-- A store holding one fully initialised session (project key set), for
exercising routes past their auth dependency. -/
def authedStore : Store := fun k =>
  if k = "user-1" then
    some { access_token := "tok", cloud_id := "cid",
           base_url := "https://api.atlassian.com/ex/jira/cid",
           project_key := some "PROJ" }
  else none

/-- Claim C3 is false as stated: with a valid session, an upstream 404
from Jira on GET /projects is answered to the client as 500, not as the
upstream 404 — `raise_for_status` turns every upstream failure into the
blanket 500 of `except RequestException`. -/
theorem C3_counterexample :
    (get_projects (some "user-1") authedStore ⟨404, true⟩).1 = 500 ∧
    ¬ ((get_projects (some "user-1") authedStore ⟨404, true⟩).1 = 404) := by
  refine ⟨rfl, by decide⟩

/-- Claim C3 (amended): only `fetch_ticket` (for its initial issue
request) and `oauth_callback` (for a failed token exchange) pass the
upstream status through; the handlers built on `raise_for_status` —
`get_projects` and every `jql_search`-based route — answer 500 to every
upstream failure status. -/
theorem C3_status_mapping (s : Nat) (uid : Option String) (store : Store)
    (hd : AuthHeaders) (bu pk jql : String)
    (hauth : get_auth_headers uid store = .ok (hd, bu, pk))
    (hfail : raiseForStatusErrors s = true) :
    (fetch_ticket uid store s).1 = s ∧
    (∀ jok, (get_projects uid store ⟨s, jok⟩).1 = 500) ∧
    (∀ issues,
      jql_route_status (jql_search jql bu (some pk) none ⟨s, issues⟩).2
        = 500) ∧
    (∀ env : OAuthEnv, env.token_response.status = s →
      (oauth_callback (some "authcode") env store).2.1 = .tokenFailure s) := by
  have h400 : 400 ≤ s ∧ s < 600 := by
    unfold raiseForStatusErrors at hfail
    simpa using hfail
  have hne200 : s ≠ 200 := by omega
  refine ⟨?_, ?_, ?_, ?_⟩
  · simp [fetch_ticket, hauth, hne200]
  · intro jok
    simp [get_projects, hauth, hfail]
  · intro issues
    simp [jql_search, hfail, jql_route_status]
  · intro env henv
    simp [oauth_callback, optTruthy, henv, hne200]

/-- Witness for C3 (amended): a 404 on the issue request of
GET /ticket/{key} reaches the client as 404, while the same upstream 404
on GET /projects reaches it as 500. -/
theorem C3_witness :
    (fetch_ticket (some "user-1") authedStore 404).1 = 404 ∧
    (get_projects (some "user-1") authedStore ⟨404, true⟩).1 = 500 := by
  have h := C3_status_mapping 404 (some "user-1") authedStore
    ⟨"Bearer tok", "application/json", "application/json"⟩
    "https://api.atlassian.com/ex/jira/cid" "PROJ" "labels = \"x\""
    rfl rfl
  exact ⟨h.1, h.2.1 true⟩

/-! ## Claims C4 and C5 -/

/-- Anatomy of a successful `oauth_callback`: the guard conditions that
were passed, the resolved user id, the full trace of outbound requests,
and the store update. -/
theorem oauth_callback_success_spec (code : Option String) (env : OAuthEnv)
    (store : Store) (uid : String)
    (h : (oauth_callback code env store).2.1 = .success uid) :
    env.token_response.status = 200 ∧
    uid = resolvedUserId env ∧
    (oauth_callback code env store).1 =
      [.postTokenUrl, .getUserApi, .getResourceApi] ∧
    ∃ c rest, env.cloud_info = c :: rest ∧
      (oauth_callback code env store).2.2 =
        fun k =>
          if k = resolvedUserId env then
            some { access_token := env.token_response.access_token,
                   cloud_id := c.id,
                   base_url := "https://api.atlassian.com/ex/jira/" ++ c.id,
                   project_key := none }
          else store k := by
  cases hc : optTruthy code with
  | false => simp [oauth_callback, hc] at h
  | true =>
    by_cases ht : env.token_response.status = 200
    · cases hci : env.cloud_info with
      | nil => simp [oauth_callback, hc, ht, hci] at h
      | cons c rest =>
        have huid : uid = resolvedUserId env := by
          simp [oauth_callback, hc, ht, hci] at h
          exact h.symm
        refine ⟨ht, huid, ?_, c, rest, rfl, ?_⟩ <;>
          simp [oauth_callback, hc, ht, hci]
    · simp [oauth_callback, hc, ht] at h

/-- On every non-success outcome, `oauth_callback` leaves `user_tokens`
untouched. -/
theorem oauth_callback_not_success_store (code : Option String)
    (env : OAuthEnv) (store : Store)
    (h : ∀ uid, (oauth_callback code env store).2.1 ≠ .success uid) :
    (oauth_callback code env store).2.2 = store := by
  cases hc : optTruthy code with
  | false => simp [oauth_callback, hc]
  | true =>
    by_cases ht : env.token_response.status = 200
    · cases hci : env.cloud_info with
      | nil => simp [oauth_callback, hc, ht, hci]
      | cons c rest =>
        exfalso
        exact h (resolvedUserId env) (by simp [oauth_callback, hc, ht, hci])
    · simp [oauth_callback, hc, ht]

/-- Claim C4: a successful callback has performed the token exchange
(status 200) and resolved a cloud id (non-empty accessible-resources),
its outbound requests happened in source order — token exchange, user
info, accessible-resources — and only then is the session cached under
the resolved account id with the access token, the cloud id of the first
resource, and the derived base URL; any non-successful outcome leaves
`user_tokens` unchanged. -/
theorem C4_oauth_callback_order (code : Option String) (env : OAuthEnv)
    (store : Store) :
    (∀ uid, (oauth_callback code env store).2.1 = .success uid →
      env.token_response.status = 200 ∧
      env.cloud_info ≠ [] ∧
      (oauth_callback code env store).1 =
        [.postTokenUrl, .getUserApi, .getResourceApi] ∧
      uid = resolvedUserId env ∧
      ∃ c rest, env.cloud_info = c :: rest ∧
        (oauth_callback code env store).2.2 uid =
          some { access_token := env.token_response.access_token,
                 cloud_id := c.id,
                 base_url := "https://api.atlassian.com/ex/jira/" ++ c.id,
                 project_key := none }) ∧
    ((∀ uid, (oauth_callback code env store).2.1 ≠ .success uid) →
      (oauth_callback code env store).2.2 = store) := by
  constructor
  · intro uid h
    obtain ⟨ht, huid, htrace, c, rest, hci, hstore⟩ :=
      oauth_callback_success_spec code env store uid h
    refine ⟨ht, by rw [hci]; exact List.cons_ne_nil c rest, htrace, huid,
      c, rest, hci, ?_⟩
    rw [hstore, huid]
    simp
  · exact oauth_callback_not_success_store code env store

/-- A successful OAuth environment with account id `acct-1`. -/
def oauthEnvA : OAuthEnv :=
  { token_response := { status := 200, access_token := "at-1" },
    user_info := { account_id := some "acct-1" },
    cloud_info := [{ id := "cloud-9" }],
    fresh_uuid := "uuid-0" }

/-- The empty `user_tokens` store. -/
def emptyStore : Store := fun _ => none

/-- Witness for C4 at a concrete successful callback. -/
theorem C4_witness :
    oauthEnvA.token_response.status = 200 ∧
    oauthEnvA.cloud_info ≠ [] ∧
    (oauth_callback (some "authcode") oauthEnvA emptyStore).1 =
      [.postTokenUrl, .getUserApi, .getResourceApi] ∧
    "acct-1" = resolvedUserId oauthEnvA ∧
    ∃ c rest, oauthEnvA.cloud_info = c :: rest ∧
      (oauth_callback (some "authcode") oauthEnvA emptyStore).2.2 "acct-1" =
        some { access_token := "at-1", cloud_id := c.id,
               base_url := "https://api.atlassian.com/ex/jira/" ++ c.id,
               project_key := none } :=
  (C4_oauth_callback_order (some "authcode") oauthEnvA emptyStore).1
    "acct-1" rfl

/-- A successful OAuth environment with account id `acct-2`. -/
def oauthEnvB : OAuthEnv :=
  { token_response := { status := 200, access_token := "at-2" },
    user_info := { account_id := some "acct-2" },
    cloud_info := [{ id := "cloud-2" }],
    fresh_uuid := "uuid-2" }

/-- Claim C5 is false as stated: a successful callback issues three
outbound HTTP requests (token exchange, the /me user-info lookup, and
accessible-resources), not two. -/
theorem C5_counterexample :
    (oauth_callback (some "authcode") oauthEnvB emptyStore).2.1 =
      .success "acct-2" ∧
    (oauth_callback (some "authcode") oauthEnvB emptyStore).1.length = 3 ∧
    ¬ ((oauth_callback (some "authcode") oauthEnvB emptyStore).1.length
        = 2) := by
  refine ⟨rfl, rfl, by decide⟩

/-- Claim C5 (amended): every successful invocation of the OAuth
callback handler issues exactly three outbound HTTP requests — the token
exchange, the /me user-info lookup, and accessible-resources — before
caching the per-user session. -/
theorem C5_three_outbound_calls (code : Option String) (env : OAuthEnv)
    (store : Store) (uid : String)
    (h : (oauth_callback code env store).2.1 = .success uid) :
    (oauth_callback code env store).1 =
      [.postTokenUrl, .getUserApi, .getResourceApi] ∧
    (oauth_callback code env store).1.length = 3 := by
  obtain ⟨-, -, htrace, -⟩ :=
    oauth_callback_success_spec code env store uid h
  exact ⟨htrace, by rw [htrace]; rfl⟩

/-- Witness for C5 (amended) at a concrete successful callback. -/
theorem C5_witness :
    (oauth_callback (some "authcode") oauthEnvB emptyStore).1 =
      [.postTokenUrl, .getUserApi, .getResourceApi] :=
  (C5_three_outbound_calls (some "authcode") oauthEnvB emptyStore
    "acct-2" rfl).1

/-! ## Claim C6 -/

/-- `set_project` never removes a key of `user_tokens`. -/
theorem set_project_keeps (uid : Option String) (pk : Option String)
    (store : Store) (k : String) (h : (store k).isSome) :
    ((set_project uid pk store).2 k).isSome := by
  cases uid with
  | none => exact h
  | some u =>
    by_cases hu : u = ""
    · simpa [set_project, hu] using h
    · cases hsu : store u with
      | none => simpa [set_project, hu, hsu] using h
      | some data =>
        cases pk with
        | none => simpa [set_project, hu, hsu] using h
        | some p =>
          by_cases hp : p = ""
          · simpa [set_project, hu, hsu, hp] using h
          · by_cases hk : k = u
            · simp [set_project, hu, hsu, hp, hk]
            · simpa [set_project, hu, hsu, hp, hk] using h

/-- `oauth_callback` never removes a key of `user_tokens`. -/
theorem oauth_callback_keeps (code : Option String) (env : OAuthEnv)
    (store : Store) (k : String) (h : (store k).isSome) :
    ((oauth_callback code env store).2.2 k).isSome := by
  cases hc : optTruthy code with
  | false => simpa [oauth_callback, hc] using h
  | true =>
    by_cases ht : env.token_response.status = 200
    · cases hci : env.cloud_info with
      | nil => simpa [oauth_callback, hc, ht, hci] using h
      | cons c rest =>
        by_cases hk : k = resolvedUserId env
        · simp [oauth_callback, hc, ht, hci, hk]
        · simpa [oauth_callback, hc, ht, hci, hk] using h
    · simpa [oauth_callback, hc, ht] using h

/-- No handler execution removes a key of `user_tokens`. -/
theorem applyStep_keeps (store : Store) (step : HandlerStep) (k : String)
    (h : (store k).isSome) : ((applyStep store step) k).isSome := by
  cases step with
  | oauthCallbackStep code env => exact oauth_callback_keeps code env store k h
  | setProjectStep uid pk => exact set_project_keeps uid pk store k h
  | readOnly => exact h

/-- Outside the resolved user id, `oauth_callback` changes nothing. -/
theorem oauth_callback_frame (code : Option String) (env : OAuthEnv)
    (store : Store) (k : String) (hk : k ≠ resolvedUserId env) :
    (oauth_callback code env store).2.2 k = store k := by
  cases hc : optTruthy code with
  | false => simp [oauth_callback, hc]
  | true =>
    by_cases ht : env.token_response.status = 200
    · cases hci : env.cloud_info with
      | nil => simp [oauth_callback, hc, ht, hci]
      | cons c rest => simp [oauth_callback, hc, ht, hci, hk]
    · simp [oauth_callback, hc, ht]

/-- Claim C6: across every sequence of handler executions the key set of
`user_tokens` is monotonically non-decreasing (no handler removes a key),
and `oauth_callback` only adds or overwrites the entry of the one
resolved user id, leaving every other key unchanged. -/
theorem C6_store_monotone (steps : List HandlerStep) (store : Store) :
    (∀ k, (store k).isSome → ((runSteps store steps) k).isSome) ∧
    (∀ (code : Option String) (env : OAuthEnv) (k : String),
      k ≠ resolvedUserId env →
      (oauth_callback code env store).2.2 k = store k) := by
  constructor
  · induction steps generalizing store with
    | nil => intro k h; exact h
    | cons step rest ih =>
      intro k h
      exact ih (applyStep store step) k (applyStep_keeps store step k h)
  · intro code env k hk
    exact oauth_callback_frame code env store k hk

/-- A successful OAuth environment with account id `acct-3`. -/
def oauthEnvC : OAuthEnv :=
  { token_response := { status := 200, access_token := "at-3" },
    user_info := { account_id := some "acct-3" },
    fresh_uuid := "uuid-3",
    cloud_info := [{ id := "cloud-3" }] }

/-- A concrete handler sequence: a login, a project selection, and a
read-only route. -/
def c6Steps : List HandlerStep :=
  [.oauthCallbackStep (some "authcode") oauthEnvC,
   .setProjectStep (some "acct-3") (some "PROJ"),
   .readOnly]

/-- Witness for C6: the pre-existing key `user-1` survives a concrete
sequence of handler executions. -/
theorem C6_witness : ((runSteps authedStore c6Steps) "user-1").isSome := by
  exact (C6_store_monotone c6Steps authedStore).1 "user-1" rfl

/-! ## Claim C7 -/

/-- Claim C7: whenever `get_auth_headers` succeeds, the Authorization
header it builds for the outbound Jira request is exactly
`"Bearer " ++ access_token` for the token stored in `user_tokens` under
the request's `user_id`, together with plain JSON Accept/Content-Type
headers — no basic-auth credential appears anywhere in the header set. -/
theorem C7_bearer_auth (uid : Option String) (store : Store)
    (hd : AuthHeaders) (bu pk : String)
    (h : get_auth_headers uid store = .ok (hd, bu, pk)) :
    ∃ s data, uid = some s ∧ store s = some data ∧
      hd = { authorization := "Bearer " ++ data.access_token,
             accept := "application/json",
             contentType := "application/json" } ∧
      bu = data.base_url ∧
      data.project_key = some pk := by
  cases uid with
  | none => simp [get_auth_headers] at h
  | some u =>
    by_cases hu : u = ""
    · simp [get_auth_headers, hu] at h
    · cases hsu : store u with
      | none => simp [get_auth_headers, hu, hsu] at h
      | some data =>
        cases hpk : data.project_key with
        | none => simp [get_auth_headers, hu, hsu, hpk] at h
        | some p =>
          by_cases hp : p = ""
          · simp [get_auth_headers, hu, hsu, hpk, hp] at h
          · simp [get_auth_headers, hu, hsu, hpk, hp] at h
            obtain ⟨h1, h2, h3⟩ := h
            exact ⟨u, data, rfl, hsu, h1.symm, h2.symm,
              by rw [hpk, h3]⟩

/-- Witness for C7: the headers built for the session of `user-1`. -/
theorem C7_witness :
    ∃ s data, (some "user-1" : Option String) = some s ∧
      authedStore s = some data ∧
      ({ authorization := "Bearer tok", accept := "application/json",
         contentType := "application/json" } : AuthHeaders) =
        { authorization := "Bearer " ++ data.access_token,
          accept := "application/json",
          contentType := "application/json" } ∧
      "https://api.atlassian.com/ex/jira/cid" = data.base_url ∧
      data.project_key = some "PROJ" :=
  C7_bearer_auth (some "user-1") authedStore
    ⟨"Bearer tok", "application/json", "application/json"⟩
    "https://api.atlassian.com/ex/jira/cid" "PROJ" rfl

/-! ## Claim C8 -/

/-- A store in which the empty string is a key with no project key set —
reachable, since `oauth_callback` stores under
`user_info.get("account_id", ...)`, and a `/me` body with an empty
`account_id` yields exactly the key `""`. -/
def emptyKeyStore : Store := fun k =>
  if k = "" then
    some { access_token := "tok0", cloud_id := "cid0",
           base_url := "https://api.atlassian.com/ex/jira/cid0",
           project_key := none }
  else none

/-- Claim C8 is false as stated: with `user_id` present but equal to the
empty string, and a stored session under `""` that has no project key,
the route fails with 401 (the falsy-`user_id` check fires first), not
with the 400 the claim's project-key clause requires. -/
theorem C8_counterexample :
    emptyKeyStore "" =
      some { access_token := "tok0", cloud_id := "cid0",
             base_url := "https://api.atlassian.com/ex/jira/cid0",
             project_key := none } ∧
    (get_projects (some "") emptyKeyStore ⟨200, true⟩).1 = 401 ∧
    ¬ ((get_projects (some "") emptyKeyStore ⟨200, true⟩).1 = 400) := by
  refine ⟨rfl, rfl, by decide⟩

/-- Claim C8 (amended): for routes depending on `get_auth_headers` — an
absent or empty `user_id` fails with 401; a present non-empty `user_id`
that is not a key of `user_tokens` fails with 401; a stored session
without a project key fails with 400; and in each failure case no
outbound Jira request is made and `user_tokens` is unchanged. -/
theorem C8_auth_failures (uid : Option String) (store : Store)
    (env : ProxyEnv) (senv : SearchEnv) (ts : Nat) :
    ((uid = none ∨ uid = some "") →
      get_auth_headers uid store = .error .missingUserId ∧
      get_projects uid store env = (401, [], store) ∧
      fetch_ticket uid store ts = (401, [], store) ∧
      get_impact_by_label "L" none uid store senv = .authError 401) ∧
    (∀ u, uid = some u → u ≠ "" → store u = none →
      get_auth_headers uid store = .error .sessionUnknown ∧
      get_projects uid store env = (401, [], store) ∧
      fetch_ticket uid store ts = (401, [], store) ∧
      get_impact_by_label "L" none uid store senv = .authError 401) ∧
    (∀ u data, uid = some u → u ≠ "" → store u = some data →
      data.project_key = none →
      get_auth_headers uid store = .error .projectUnset ∧
      get_projects uid store env = (400, [], store) ∧
      fetch_ticket uid store ts = (400, [], store) ∧
      get_impact_by_label "L" none uid store senv = .authError 400) := by
  refine ⟨?_, ?_, ?_⟩
  · intro hcase
    have hga : get_auth_headers uid store = .error .missingUserId := by
      rcases hcase with h | h <;> subst h <;> simp [get_auth_headers]
    refine ⟨hga, ?_, ?_, ?_⟩ <;>
      simp [get_projects, fetch_ticket, get_impact_by_label, hga,
        AuthError.status]
  · intro u hview hu hsu
    subst hview
    have hga : get_auth_headers (some u) store = .error .sessionUnknown := by
      simp [get_auth_headers, hu, hsu]
    refine ⟨hga, ?_, ?_, ?_⟩ <;>
      simp [get_projects, fetch_ticket, get_impact_by_label, hga,
        AuthError.status]
  · intro u data hview hu hsu hpk
    subst hview
    have hga : get_auth_headers (some u) store = .error .projectUnset := by
      simp [get_auth_headers, hu, hsu, hpk]
    refine ⟨hga, ?_, ?_, ?_⟩ <;>
      simp [get_projects, fetch_ticket, get_impact_by_label, hga,
        AuthError.status]

/-- Witness for C8 (amended): an absent `user_id` on three routes. -/
theorem C8_witness :
    get_auth_headers (none : Option String) emptyStore =
      .error .missingUserId ∧
    get_projects none emptyStore ⟨200, true⟩ = (401, [], emptyStore) ∧
    fetch_ticket none emptyStore 200 = (401, [], emptyStore) ∧
    get_impact_by_label "L" none none emptyStore ⟨200, []⟩ =
      .authError 401 :=
  (C8_auth_failures none emptyStore ⟨200, true⟩ ⟨200, []⟩ 200).1 (Or.inl rfl)

/-! ## Claim C9 -/

/-- Every `jql_search` call sends `maxResults = 100` and, on success,
returns at most as many issues as the response holds. -/
theorem jql_search_bounds (jql bu : String) (pk sk : Option String)
    (env : SearchEnv) :
    (jql_search jql bu pk sk env).1.maxResults = 100 ∧
    ∀ out, (jql_search jql bu pk sk env).2 = .ok out →
      out.length ≤ env.issues.length := by
  constructor
  · by_cases hrs : raiseForStatusErrors env.upstream_status <;>
      simp [jql_search, hrs]
  · intro out hok
    by_cases hrs : raiseForStatusErrors env.upstream_status
    · simp [jql_search, hrs] at hok
    · simp [jql_search, hrs] at hok
      rw [← hok]
      exact jql_search_issues_length_le sk env.issues

/-- Claim C9: `jql_search` always sends `maxResults = 100` to Jira and
returns at most as many issues as the response holds (hence at most 100
when the response honours the cap), and every `/impact/*` and
`/tickets/*` route inherits both bounds. -/
theorem C9_max_results (jql bu : String) (pk sk : Option String)
    (env : SearchEnv) :
    ((jql_search jql bu pk sk env).1.maxResults = 100) ∧
    (∀ out, (jql_search jql bu pk sk env).2 = .ok out →
      out.length ≤ env.issues.length ∧
      (env.issues.length ≤ 100 → out.length ≤ 100)) ∧
    (∀ (label : String) (sid : Int) (st uid : Option String)
        (store : Store) (r : JqlRequest × JqlResult),
      (get_impact_by_label label st uid store env = .jira r ∨
       get_impact_by_component label st uid store env = .jira r ∨
       get_impact_by_module label st uid store env = .jira r ∨
       get_tickets_by_sprint sid uid store env = .jira r ∨
       get_tickets_by_priority label uid store env = .jira r) →
      r.1.maxResults = 100 ∧
      ∀ out, r.2 = .ok out → out.length ≤ env.issues.length) := by
  refine ⟨(jql_search_bounds jql bu pk sk env).1, ?_, ?_⟩
  · intro out hok
    have hlen := (jql_search_bounds jql bu pk sk env).2 out hok
    exact ⟨hlen, fun h100 => le_trans hlen h100⟩
  · intro label sid st uid store r hr
    cases hga : get_auth_headers uid store with
    | error e =>
      rcases hr with h | h | h | h | h <;>
        simp [get_impact_by_label, get_impact_by_component,
          get_impact_by_module, get_tickets_by_sprint,
          get_tickets_by_priority, hga] at h
    | ok v =>
      obtain ⟨hd2, bu2, pk2⟩ := v
      rcases hr with h | h | h | h | h <;>
        · simp [get_impact_by_label, get_impact_by_component,
            get_impact_by_module, get_tickets_by_sprint,
            get_tickets_by_priority, hga] at h
          rw [← h]
          exact jql_search_bounds _ _ _ _ env

/-- Witness for C9 at a concrete call: the request carries
`maxResults = 100` and the returned list is within the response size. -/
theorem C9_witness :
    (jql_search "labels = \"ui\"" "https://b" none none
      ⟨200, [storyIssue]⟩).1.maxResults = 100 ∧
    (jql_search_issues none [storyIssue]).length ≤ 1 := by
  have h := C9_max_results "labels = \"ui\"" "https://b" none none
    ⟨200, [storyIssue]⟩
  exact ⟨h.1, (h.2.1 (jql_search_issues none [storyIssue]) rfl).1⟩

/-! ## Claim C10 -/

/-- The five extensions `extract_text_from_attachment` can parse. -/
def supportedExts : List String := [".txt", ".pdf", ".docx", ".csv", ".xlsx"]

/-- The `[ERROR reading ...]` message split after the colon: whatever the
exception text, the result starts with `"[ERROR reading <filename>:"`. -/
theorem errorMessage_split (filename e : String) :
    errorMessage filename e =
      ("[ERROR reading " ++ filename ++ ":") ++ (" " ++ e ++ "]") := by
  apply String.ext
  simp [errorMessage, String.data_append]

/-- Claim C10: `extract_text_from_attachment` is total at its interface
(it is a function into `String`; the Python body sits in one
`try/except Exception`): an unsupported extension yields
`"[Unsupported file type: <ext>]"`, a `.txt` file yields the
ignore-errors decode (which cannot raise), and an exception in any
supported parser yields a string beginning with
`"[ERROR reading <filename>:"`. -/
theorem C10_extract_total (env : ParseEnv) (filename : String) :
    (lowerAscii (splitextExt filename) ∉ supportedExts →
      extract_text_from_attachment env filename =
        "[Unsupported file type: " ++ lowerAscii (splitextExt filename)
          ++ "]") ∧
    (lowerAscii (splitextExt filename) = ".txt" →
      extract_text_from_attachment env filename = env.decodeUtf8Ignore) ∧
    (∀ e,
      ((lowerAscii (splitextExt filename) = ".pdf" ∧
          env.pdfText = .error e) ∨
       (lowerAscii (splitextExt filename) = ".docx" ∧
          env.docxText = .error e) ∨
       (lowerAscii (splitextExt filename) = ".csv" ∧
          env.csvText = .error e) ∨
       (lowerAscii (splitextExt filename) = ".xlsx" ∧
          env.xlsxText = .error e)) →
      extract_text_from_attachment env filename =
        ("[ERROR reading " ++ filename ++ ":") ++ (" " ++ e ++ "]")) := by
  refine ⟨?_, ?_, ?_⟩
  · intro hun
    simp only [supportedExts, List.mem_cons, List.not_mem_nil, or_false,
      not_or] at hun
    obtain ⟨h1, h2, h3, h4, h5⟩ := hun
    simp [extract_text_from_attachment, h1, h2, h3, h4, h5]
  · intro htxt
    simp [extract_text_from_attachment, htxt]
  · intro e hcase
    rcases hcase with ⟨hx, he⟩ | ⟨hx, he⟩ | ⟨hx, he⟩ | ⟨hx, he⟩ <;>
      rw [← errorMessage_split] <;>
      simp [extract_text_from_attachment, hx, he]

/-- Witness for C10: a PDF whose parser raises yields the error string. -/
theorem C10_witness :
    extract_text_from_attachment
      ⟨"text", .error "boom", .ok "d", .ok "c", .ok "x"⟩ "report.PDF" =
      ("[ERROR reading report.PDF:") ++ (" boom]") := by
  exact (C10_extract_total
    ⟨"text", .error "boom", .ok "d", .ok "c", .ok "x"⟩ "report.PDF").2.2
    "boom" (Or.inl ⟨by decide, rfl⟩)

end JiraGPT
